import Mathlib

/-!
Verification of the KingsForms automation engine (src/automationEngine.js).

The submission controller is embedded shallowly. The mutable fields of
`KingsFormsAutomationEngine` (isRunning, currentIndex, records, results) become
an explicit state record; the per-record retry while-loop (lines 190-248) and
the main while-loop (lines 136-138) become fuel-indexed structural recursions,
with the fuel handed to each loop large enough that the fuel-exhaustion branch
is never reached; and the outside world becomes an explicit environment:

* one fill-and-submit attempt (fillForm + submitForm + waitForSubmissionSuccess,
  lines 192-196) either returns normally or throws; `Env.fail idx retryCount`
  gives the thrown message for the attempt on record `idx` with the given
  `retryCount`, `none` meaning the attempt succeeded;
* `Env.stopReq t` says whether a stop() or pause() request (both merely set
  `isRunning = false`, lines 521-529) lands at one of the await points inside
  the loop body performing global attempt number `t`, so that the next read of
  `this.isRunning` observes `false`;
* `Env.handleRetryFails t` says whether the page reload in handleRetry
  (lines 491-509) throws after attempt `t`; such an exception escapes
  processRecord, and startAutomation's catch rethrows it, so the run ends with
  the results accumulated so far and `isRunning = false` (finally, line 146).

The inter-record pacing sleep (lines 250-257) changes no engine field, so it is
dropped from the untimed run model and modelled separately, with time explicit,
for the cancellation claim. The success-detection heuristic
(waitForSubmissionSuccess, lines 404-489) is embedded over an abstract
post-submission page state, and getRandomDelay (lines 511-515) over ℚ with the
value of Math.random() passed in explicitly.
-/

namespace KingsForms

variable {α : Type}

/-- Entry pushed onto `results.successful` (automationEngine.js lines 201-205):
`{ index: this.currentIndex, record: record, attempts: retryCount + 1 }`. -/
structure SuccessEntry (α : Type) where
  index : Nat
  record : α
  attempts : Nat
deriving DecidableEq

/-- Entry pushed onto `results.failed` (automationEngine.js lines 238-243):
`{ index: this.currentIndex, record: record, error: error.message, attempts: retryCount }`
(pushed after `retryCount++`, so `attempts` is the post-increment count). -/
structure FailEntry (α : Type) where
  index : Nat
  record : α
  error : String
  attempts : Nat
deriving DecidableEq

/-- The `results` object (lines 31-35, reset at lines 123-127). -/
structure RunResults (α : Type) where
  successful : List (SuccessEntry α)
  failed : List (FailEntry α)
  retries : Nat
deriving DecidableEq

/-- The mutable engine fields the claims observe (lines 26-35). -/
structure EngineState (α : Type) where
  isRunning : Bool
  currentIndex : Nat
  records : List α
  results : RunResults α
deriving DecidableEq

/-- External behaviour of one run: attempt outcomes, stop/pause requests, and
handleRetry navigation failures, indexed by the global count of attempts made
so far (each fill-and-submit attempt is one tick). -/
structure Env where
  fail : Nat → Nat → Option String
  stopReq : Nat → Bool
  handleRetryFails : Nat → Bool

/-- Result of running the per-record retry loop: the updated `results`, the
`isRunning` value as observed at the exit of the loop, the new global attempt
count, whether the loop finalized the record (pushed exactly one entry and will
advance `currentIndex`), and whether a handleRetry exception escaped. -/
structure LoopExit (α : Type) where
  results : RunResults α
  running : Bool
  t : Nat
  advanced : Bool
  aborted : Bool
deriving DecidableEq

/-- The per-record retry while-loop of processRecord (lines 190-248):
`while (retryCount <= maxRetries && this.isRunning)`. On a successful attempt,
push onto `successful` with `attempts = retryCount + 1` and finalize; the
navigation to a fresh form page afterwards (lines 208-218) has its errors
caught and ignored, so it does not appear in the model. On a thrown attempt,
increment `retries` (line 224) and the retry count; if retries remain, run
handleRetry (which may itself throw, aborting the run) and loop; otherwise push
onto `failed` with the message of the last error and `attempts = retryCount`
(post-increment) and finalize. A stop/pause request landing at any await point
inside the body of tick `t` makes the next read of `isRunning` observe `false`,
modelled by conjoining `!env.stopReq t` on every exit. The first argument of
the recursion is fuel; callers pass `maxRetries + 1`, which the loop can never
exhaust, so the fuel-out branch (identical to the condition-false exit) is
unreachable. -/
def processRecordLoop (env : Env) (maxRetries idx : Nat) (record : α) :
    Nat → Nat → Nat → Bool → RunResults α → LoopExit α
  | 0, _, t, running, results => ⟨results, running, t, false, false⟩
  | fuel + 1, retryCount, t, running, results =>
    if retryCount ≤ maxRetries ∧ running = true then
      match env.fail idx retryCount with
      | none =>
          ⟨{ results with
              successful := results.successful ++ [⟨idx, record, retryCount + 1⟩] },
            running && !env.stopReq t, t + 1, true, false⟩
      | some msg =>
          if retryCount + 1 ≤ maxRetries then
            if env.handleRetryFails t then
              ⟨{ results with retries := results.retries + 1 },
                running && !env.stopReq t, t + 1, false, true⟩
            else
              processRecordLoop env maxRetries idx record fuel (retryCount + 1) (t + 1)
                (running && !env.stopReq t) { results with retries := results.retries + 1 }
          else
            ⟨{ results with
                retries := results.retries + 1
                failed := results.failed ++ [⟨idx, record, msg, retryCount + 1⟩] },
              running && !env.stopReq t, t + 1, true, false⟩
    else
      ⟨results, running, t, false, false⟩

/-- One call of processRecord (lines 180-258) on the engine state, returning the
new state and the new global attempt count. `record` is
`this.records[this.currentIndex]`; `currentIndex` advances exactly when the
retry loop finalized the record; an escaped handleRetry exception ends the run
(observationally: `isRunning` becomes false and no further field changes). The
inter-record sleep (lines 250-257) mutates no engine field and is modelled
separately for the timing claim. -/
def processRecord [Inhabited α] (env : Env) (maxRetries t : Nat) (s : EngineState α) :
    EngineState α × Nat :=
  let e := processRecordLoop env maxRetries s.currentIndex
    (s.records.getD s.currentIndex default) (maxRetries + 1) 0 t s.isRunning s.results
  ({ s with
      results := e.results
      currentIndex := s.currentIndex + (if e.advanced then 1 else 0)
      isRunning := e.running && !e.aborted },
    e.t)

/-- The main loop of startAutomation (lines 136-138):
`while (this.isRunning && this.currentIndex < this.records.length) processRecord()`.
Fuel-indexed; callers pass enough fuel that the fuel-out branch is unreachable. -/
def mainLoop [Inhabited α] (env : Env) (maxRetries : Nat) :
    Nat → Nat → EngineState α → EngineState α
  | 0, _, s => s
  | fuel + 1, t, s =>
    if s.isRunning = true ∧ s.currentIndex < s.records.length then
      mainLoop env maxRetries fuel (processRecord env maxRetries t s).2
        (processRecord env maxRetries t s).1
    else
      s

/-- startAutomation (lines 115-148) after a successful navigateToForm: reset the
results, set `currentIndex` to the start index, run the main loop, and clear
`isRunning` in the finally block (line 146). A navigation failure at start
(lines 150-178) aborts before any record is processed and is therefore outside
this model; mid-run navigation failures are `Env.handleRetryFails`. The
already-running guard (lines 116-118) is the caller's precondition: this
models a run started from an idle engine. -/
def startAutomation [Inhabited α] (env : Env) (maxRetries : Nat) (records : List α)
    (startIndex : Nat) : EngineState α :=
  { mainLoop env maxRetries (records.length + 1 - startIndex) 0
      { isRunning := true
        currentIndex := startIndex
        records := records
        results := { successful := [], failed := [], retries := 0 } }
    with isRunning := false }

/-- stop (lines 521-524): sets `this.isRunning = false` and nothing else. -/
def stop (s : EngineState α) : EngineState α := { s with isRunning := false }

/-- pause (lines 526-529): sets `this.isRunning = false` and nothing else. -/
def pause (s : EngineState α) : EngineState α := { s with isRunning := false }

/-- resume (lines 531-537): when not running and records remain, it sets
`this.isRunning = true` and then awaits `startAutomation`; but startAutomation
first checks `if (this.isRunning) throw new Error("Automation is already running")`
(lines 116-118) and the flag was just set, so it throws at once and the only
lasting state change is the flag. -/
def resume (s : EngineState α) : EngineState α :=
  if s.isRunning = false ∧ 0 < s.records.length then { s with isRunning := true } else s

/-- getRandomDelay (lines 511-515): the source computes
`variation = baseDelay * randomDelayVariation` and returns
`baseDelay + (Math.random() - 0.5) * variation` (here the local `variation` is
inlined and the value of Math.random() is the explicit argument `rand`). -/
def getRandomDelay (submissionDelay randomDelayVariation rand : ℚ) : ℚ :=
  submissionDelay + (rand - 1 / 2) * (submissionDelay * randomDelayVariation)

/-- Timed model of `sleep(ms)` (lines 517-519): a single
`new Promise(resolve => setTimeout(resolve, ms))`. Started at absolute time
`t0`, it resolves at `t0 + ms`; its body contains no read of `this.isRunning`,
so during the inter-record wait (lines 250-257) the flag is next read only at
the loop condition after the promise resolves. The value returned is that next
read time. -/
def sleep (t0 ms : Nat) : Nat := t0 + ms

/-- Outcome of one waitForSubmissionSuccess evaluation: return normally
(success) or throw the validation error (a recoverable failure consuming one
retry in processRecord). -/
inductive AttemptOutcome where
  | success
  | recoverableFailure (reason : String)
deriving DecidableEq

/-- Post-submission page state observed by waitForSubmissionSuccess
(lines 404-489): the number of elements matching the success-indicator
selectors (line 417-419), whether the URL no longer contains the form path
segment (lines 411-414), the values of the visible non-submit inputs
(lines 422-427), the textContent of elements matching the error selectors
(lines 436-447), and the state of the submit button (lines 453-470). -/
structure PageState where
  successIndicatorCount : Nat
  urlChanged : Bool
  inputValues : List String
  errorTexts : List String
  submitButtonPresent : Bool
  submitButtonDisabled : Bool
deriving DecidableEq

/-- Model of JavaScript `String.prototype.trim`: drop whitespace from both
ends (defined over the character list so that it evaluates inside the kernel). -/
def trimString (s : String) : String :=
  ⟨((s.data.dropWhile Char.isWhitespace).reverse.dropWhile Char.isWhitespace).reverse⟩

/-- The `formCleared` check (lines 422-427): the page evaluation returns
`Array.from(inputs).some(input => input.value.trim() === "")` — it fires as
soon as SOME input is empty after trimming. -/
def formCleared (page : PageState) : Bool :=
  page.inputValues.any (fun v => trimString v == "")

/-- The joined error text (lines 440-447):
`els.map(el => el.textContent.trim()).filter(text => text).join(" ")`. -/
def joinedErrorText (errorTexts : List String) : String :=
  String.intercalate " " ((errorTexts.map trimString).filter (fun s => s != ""))

/-- waitForSubmissionSuccess (lines 404-489), after the settle delay: first the
combined success check (line 430: success indicators, URL change, or
formCleared, in one disjunction) returns success; only otherwise are the error
markers consulted (lines 436-451), throwing `Form validation error: <text>`
when at least one error element exists and the joined text is non-empty; all
remaining branches (submit button missing, disabled, or no signal at all,
lines 453-475) return success. -/
def waitForSubmissionSuccess (page : PageState) : AttemptOutcome :=
  if 0 < page.successIndicatorCount ∨ page.urlChanged = true ∨ formCleared page = true then
    .success
  else if 0 < page.errorTexts.length ∧ joinedErrorText page.errorTexts ≠ "" then
    .recoverableFailure ("Form validation error: " ++ joinedErrorText page.errorTexts)
  else if !page.submitButtonPresent then
    .success
  else if page.submitButtonDisabled then
    .success
  else
    .success

/-- Environment in which every attempt succeeds and no stop/pause request or
navigation failure ever arrives. -/
def noStopEnv : Env :=
  { fail := fun _ _ => none, stopReq := fun _ => false, handleRetryFails := fun _ => false }

/-- Environment in which every attempt throws and no stop/pause request or
navigation failure ever arrives. -/
def allFailEnv : Env :=
  { fail := fun _ _ => some "submit timeout"
    stopReq := fun _ => false
    handleRetryFails := fun _ => false }

/-- A running engine about to process the single record "alice". -/
def aliceState : EngineState String :=
  { isRunning := true
    currentIndex := 0
    records := ["alice"]
    results := { successful := [], failed := [], retries := 0 } }

/-- Attempt oracle for the three-record scenario: record 1 succeeds at once,
record 2 fails its first attempt then succeeds, record 3 fails every attempt. -/
def threeRecordFail (idx attempt : Nat) : Option String :=
  if idx = 0 then none
  else if idx = 1 then (if attempt = 0 then some "record 2 rejected" else none)
  else some "record 3 rejected"

/-- Environment for the three-record scenario, with no stop request and no
navigation failure. -/
def threeRecordEnv : Env :=
  { fail := threeRecordFail, stopReq := fun _ => false, handleRetryFails := fun _ => false }

/-- Environment in which record 1 succeeds, record 2 fails every attempt, and a
stop() request lands while record 2 is mid-retry: the request arrives during
the handleRetry that follows record 2's first failed attempt (global attempt
tick 1), so every read of `isRunning` from then on observes `false`. -/
def midRetryStopEnv : Env :=
  { fail := fun idx _ => if idx = 0 then none else some "record 2 submit rejected"
    stopReq := fun t => decide (1 ≤ t)
    handleRetryFails := fun _ => false }

/-- Page state in which explicit error markers with non-empty text and a
success indicator are present simultaneously. -/
def errorAndSuccessPage : PageState :=
  { successIndicatorCount := 1
    urlChanged := false
    inputValues := ["Jane"]
    errorTexts := ["Error: email is invalid"]
    submitButtonPresent := true
    submitButtonDisabled := false }

/-- Page state in which only error markers are present: no success indicator,
no URL change, no empty input. -/
def errorOnlyPage : PageState :=
  { successIndicatorCount := 0
    urlChanged := false
    inputValues := ["Jane"]
    errorTexts := ["Email is required"]
    submitButtonPresent := true
    submitButtonDisabled := false }

/-- Page state with no markers and no URL change in which one previously-filled
field is still non-empty while another input is empty. -/
def partlyFilledPage : PageState :=
  { successIndicatorCount := 0
    urlChanged := false
    inputValues := ["John", ""]
    errorTexts := []
    submitButtonPresent := true
    submitButtonDisabled := false }

/-- C9: pause() and stop() are idempotent — in every engine state, calling
either twice in a row yields exactly the state of calling it once (both only
assign `isRunning = false`, lines 521-529). -/
theorem stop_pause_idempotent (α : Type) (s : EngineState α) :
    stop (stop s) = stop s ∧ pause (pause s) = pause s :=
  ⟨rfl, rfl⟩

/-- C10: pause() and stop() are extensionally equal — in every engine state
they perform the identical state change, namely clearing the running flag and
nothing else, so no observer of engine state, including a subsequent resume(),
can distinguish a paused run from a stopped one. -/
theorem stop_pause_extensionally_equal (α : Type) (s : EngineState α) :
    stop s = pause s ∧ stop s = { s with isRunning := false } ∧
      resume (stop s) = resume (pause s) :=
  ⟨rfl, rfl, rfl⟩

/-- C7: for every base delay ≥ 0, variation fraction in [0,1] and random-source
value in [0,1], getRandomDelay stays within the closed interval
[base * (1 - variation/2), base * (1 + variation/2)]. -/
theorem getRandomDelay_bounds (base variation rand : ℚ) (hbase : 0 ≤ base)
    (hvar0 : 0 ≤ variation) (_hvar1 : variation ≤ 1)
    (hrand0 : 0 ≤ rand) (hrand1 : rand ≤ 1) :
    base * (1 - variation / 2) ≤ getRandomDelay base variation rand ∧
      getRandomDelay base variation rand ≤ base * (1 + variation / 2) := by
  unfold getRandomDelay
  constructor
  · nlinarith [mul_nonneg (mul_nonneg hbase hvar0) hrand0]
  · nlinarith [mul_nonneg (mul_nonneg hbase hvar0) (sub_nonneg.mpr hrand1)]

/-- Witness for C7 at base 5000, variation 1/5, random value 0. -/
theorem getRandomDelay_bounds_witness :
    (5000 : ℚ) * (1 - (1 / 5) / 2) ≤ getRandomDelay 5000 (1 / 5) 0 ∧
      getRandomDelay 5000 (1 / 5) 0 ≤ 5000 * (1 + (1 / 5) / 2) :=
  getRandomDelay_bounds 5000 (1 / 5) 0 (by norm_num) (by norm_num) (by norm_num)
    (by norm_num) (by norm_num)

/-- C6 (code evaluation at the failing input): the inter-record pacing sleep is
a single setTimeout with no read of `isRunning` inside, so the stop flag is
next read only when the full delay has elapsed — with delay 5000 and a stop()
issued the moment the wait begins at time 0, the flag is first observed at
time 5000, and in general the wait blocks for the whole window `ms` no matter
when the stop request arrives. -/
theorem sleep_blocks_full_window :
    sleep 0 5000 = 5000 ∧ ∀ t0 ms, sleep t0 ms - t0 = ms :=
  ⟨rfl, fun t0 ms => by simp [sleep]⟩

/-- C8 (code evaluation at the failing input): with no markers and no URL
change and input values ["John", ""], the form-cleared check fires (it uses
`.some`, so one empty input suffices) and waitForSubmissionSuccess returns
success even though a previously-filled field is still non-empty — the
intended reset-after-submit signal would require ALL fields to be empty. -/
theorem formCleared_fires_on_partially_filled_form :
    formCleared partlyFilledPage = true ∧
      partlyFilledPage.inputValues.all (fun v => trimString v == "") = false ∧
      waitForSubmissionSuccess partlyFilledPage = .success := by
  decide

/-- C3 counterexample: on a page where explicit error markers with non-empty
text and a success indicator are present simultaneously, waitForSubmissionSuccess
returns success — it does not evaluate the error markers first. -/
theorem waitForSubmissionSuccess_ignores_error_markers :
    waitForSubmissionSuccess errorAndSuccessPage = .success ∧
      joinedErrorText errorAndSuccessPage.errorTexts ≠ "" ∧
      0 < errorAndSuccessPage.successIndicatorCount := by
  decide

/-- C3 (amended): error markers with non-empty joined text produce the
recoverable validation failure carrying that text exactly when none of the
success signals (success indicators, URL change, form-cleared) is present;
those three signals take priority over the error markers. -/
theorem error_markers_reported_only_without_success_signals (page : PageState)
    (hsucc : page.successIndicatorCount = 0) (hurl : page.urlChanged = false)
    (hclear : formCleared page = false) (herr : joinedErrorText page.errorTexts ≠ "") :
    waitForSubmissionSuccess page
      = .recoverableFailure ("Form validation error: " ++ joinedErrorText page.errorTexts) := by
  have hlen : 0 < page.errorTexts.length := by
    rcases h : page.errorTexts with _ | ⟨a, l⟩
    · exact absurd (by rw [h]; rfl) herr
    · simp [h]
  unfold waitForSubmissionSuccess
  rw [if_neg, if_pos ⟨hlen, herr⟩]
  rintro (h | h | h)
  · omega
  · rw [hurl] at h; exact Bool.false_ne_true h
  · rw [hclear] at h; exact Bool.false_ne_true h

/-- Witness for the amended C3 on a page with only error markers present. -/
theorem error_markers_reported_witness :
    waitForSubmissionSuccess errorOnlyPage
      = .recoverableFailure
          ("Form validation error: " ++ joinedErrorText errorOnlyPage.errorTexts) :=
  error_markers_reported_only_without_success_signals errorOnlyPage rfl rfl
    (by decide) (by decide)

/-- Helper: with no stop/pause request and no handleRetry failure, the retry
loop always finalizes the record — it stays running, never aborts, pushes
exactly one entry across the two result lists, and reports the record as
advanced. -/
theorem processRecordLoop_noStop (env : Env) (maxRetries idx : Nat) (record : α)
    (hstop : ∀ u, env.stopReq u = false) (hnav : ∀ u, env.handleRetryFails u = false) :
    ∀ fuel retryCount t results, retryCount ≤ maxRetries → maxRetries - retryCount < fuel →
      (processRecordLoop env maxRetries idx record fuel retryCount t true results).advanced
          = true ∧
      (processRecordLoop env maxRetries idx record fuel retryCount t true results).running
          = true ∧
      (processRecordLoop env maxRetries idx record fuel retryCount t true results).aborted
          = false ∧
      (processRecordLoop env maxRetries idx record fuel retryCount t true
          results).results.successful.length
        + (processRecordLoop env maxRetries idx record fuel retryCount t true
            results).results.failed.length
        = results.successful.length + results.failed.length + 1 := by
  intro fuel
  induction fuel with
  | zero => intro retryCount t results h1 h2; omega
  | succ fuel ih =>
    intro retryCount t results h1 h2
    rw [processRecordLoop, if_pos ⟨h1, rfl⟩]
    cases hf : env.fail idx retryCount with
    | none =>
      simp only [hf]
      refine ⟨by simp, by simp [hstop], by simp, ?_⟩
      simp only [List.length_append, List.length_singleton]
      omega
    | some msg =>
      simp only [hf]
      by_cases hc : retryCount + 1 ≤ maxRetries
      · rw [if_pos hc, hnav t]
        simp only [Bool.false_eq_true, if_false, hstop t, Bool.not_false, Bool.and_true]
        exact ih (retryCount + 1) (t + 1) _ hc (by omega)
      · rw [if_neg hc]
        refine ⟨by simp, by simp [hstop], by simp, ?_⟩
        simp only [List.length_append, List.length_singleton]
        omega

/-- Helper: with no stop/pause request and no handleRetry failure, one
processRecord call stays running, advances `currentIndex` by one, keeps the
record list, and adds exactly one entry across the two result lists. -/
theorem processRecord_noStop [Inhabited α] (env : Env) (maxRetries t : Nat)
    (s : EngineState α) (hstop : ∀ u, env.stopReq u = false)
    (hnav : ∀ u, env.handleRetryFails u = false) (hrun : s.isRunning = true) :
    (processRecord env maxRetries t s).1.isRunning = true ∧
    (processRecord env maxRetries t s).1.currentIndex = s.currentIndex + 1 ∧
    (processRecord env maxRetries t s).1.records = s.records ∧
    (processRecord env maxRetries t s).1.results.successful.length
        + (processRecord env maxRetries t s).1.results.failed.length
      = s.results.successful.length + s.results.failed.length + 1 := by
  obtain ⟨hadv, hrunning, habort, hlen⟩ :=
    processRecordLoop_noStop env maxRetries s.currentIndex
      (s.records.getD s.currentIndex default) hstop hnav (maxRetries + 1) 0 t s.results
      (Nat.zero_le _) (by omega)
  simp only [processRecord, hrun]
  exact ⟨by rw [hrunning, habort]; rfl, by rw [hadv]; rfl, trivial, hlen⟩

/-- Helper: with no stop/pause request and no handleRetry failure, the main
loop (given enough fuel) drives `currentIndex` to the end of the record list
and adds one result entry per remaining record. -/
theorem mainLoop_noStop [Inhabited α] (env : Env) (maxRetries : Nat)
    (hstop : ∀ u, env.stopReq u = false) (hnav : ∀ u, env.handleRetryFails u = false) :
    ∀ fuel t (s : EngineState α), s.isRunning = true →
      s.currentIndex ≤ s.records.length →
      s.records.length - s.currentIndex < fuel →
      (mainLoop env maxRetries fuel t s).currentIndex = s.records.length ∧
      (mainLoop env maxRetries fuel t s).results.successful.length
          + (mainLoop env maxRetries fuel t s).results.failed.length
        = s.results.successful.length + s.results.failed.length
          + (s.records.length - s.currentIndex) := by
  intro fuel
  induction fuel with
  | zero => intro t s h1 h2 h3; omega
  | succ fuel ih =>
    intro t s h1 h2 h3
    by_cases hlt : s.currentIndex < s.records.length
    · rw [mainLoop, if_pos ⟨h1, hlt⟩]
      obtain ⟨p1, p2, p3, p4⟩ := processRecord_noStop env maxRetries t s hstop hnav h1
      obtain ⟨q1, q2⟩ := ih (processRecord env maxRetries t s).2
        (processRecord env maxRetries t s).1 p1 (by rw [p2, p3]; omega)
        (by rw [p2, p3]; omega)
      constructor
      · rw [q1, p3]
      · rw [q2, p2, p3, p4]; omega
    · rw [mainLoop, if_neg fun h => hlt h.2]
      have heq : s.currentIndex = s.records.length := by omega
      exact ⟨heq, by omega⟩

/-- C1: for every non-empty record sequence, if startAutomation(records, 0)
runs to completion with no pause/stop request and no navigation failure, then
at the end `results.successful.length + results.failed.length = records.length`
and `currentIndex = records.length`. -/
theorem uninterrupted_run_accounting (α : Type) [Inhabited α] (env : Env)
    (maxRetries : Nat) (records : List α) (_hne : records ≠ [])
    (hstop : ∀ u, env.stopReq u = false) (hnav : ∀ u, env.handleRetryFails u = false) :
    (startAutomation env maxRetries records 0).results.successful.length
        + (startAutomation env maxRetries records 0).results.failed.length
      = records.length ∧
    (startAutomation env maxRetries records 0).currentIndex = records.length := by
  have h := mainLoop_noStop env maxRetries hstop hnav (records.length + 1 - 0) 0
    (⟨true, 0, records, ⟨[], [], 0⟩⟩ : EngineState α) rfl (Nat.zero_le _)
    (by show records.length - 0 < records.length + 1 - 0; omega)
  simp only [startAutomation]
  exact ⟨by simpa using h.2, by simpa using h.1⟩

/-- Witness for C1: a one-record run in the trivial environment. -/
theorem uninterrupted_run_accounting_witness :
    (startAutomation noStopEnv 3 ["a"] 0).results.successful.length
        + (startAutomation noStopEnv 3 ["a"] 0).results.failed.length = 1 ∧
    (startAutomation noStopEnv 3 ["a"] 0).currentIndex = 1 := by
  have h := uninterrupted_run_accounting String noStopEnv 3 ["a"] (by decide)
    (fun _ => rfl) (fun _ => rfl)
  simpa using h

/-- Helper: when every attempt on the record throws (with `errs k` the message
of the attempt made at retry count `k`) and no stop request or handleRetry
failure arrives, the retry loop pushes exactly one failed entry, carrying the
message of the last attempt and `attempts = maxRetries + 1`. -/
theorem processRecordLoop_allFail (env : Env) (maxRetries idx : Nat) (record : α)
    (errs : Nat → String) (hstop : ∀ u, env.stopReq u = false)
    (hnav : ∀ u, env.handleRetryFails u = false)
    (hfail : ∀ k, k ≤ maxRetries → env.fail idx k = some (errs k)) :
    ∀ fuel retryCount t results, retryCount ≤ maxRetries → maxRetries - retryCount < fuel →
      (processRecordLoop env maxRetries idx record fuel retryCount t true
          results).results.failed
        = results.failed ++ [⟨idx, record, errs maxRetries, maxRetries + 1⟩] := by
  intro fuel
  induction fuel with
  | zero => intro retryCount t results h1 h2; omega
  | succ fuel ih =>
    intro retryCount t results h1 h2
    rw [processRecordLoop, if_pos ⟨h1, rfl⟩]
    simp only [hfail retryCount h1]
    by_cases hc : retryCount + 1 ≤ maxRetries
    · rw [if_pos hc, hnav t]
      simp only [Bool.false_eq_true, if_false, hstop t, Bool.not_false, Bool.and_true]
      exact ih (retryCount + 1) (t + 1) _ hc (by omega)
    · rw [if_neg hc]
      have hrc : retryCount = maxRetries := by omega
      rw [hrc]

/-- C2: a record whose first submission attempt succeeds is appended to
`results.successful` with `attempts = 1`; a record that exhausts its retries
(every attempt throws, no stop request, no navigation failure) is appended to
`results.failed` with `attempts = maxRetries + 1` and the message of the last
error raised for it. -/
theorem attempt_count_contract (α : Type) [Inhabited α] :
    (∀ (env : Env) (maxRetries t : Nat) (s : EngineState α),
        s.isRunning = true → env.fail s.currentIndex 0 = none →
        (processRecord env maxRetries t s).1.results.successful
          = s.results.successful
              ++ [⟨s.currentIndex, s.records.getD s.currentIndex default, 1⟩]) ∧
    (∀ (env : Env) (maxRetries t : Nat) (s : EngineState α) (errs : Nat → String),
        s.isRunning = true →
        (∀ k, k ≤ maxRetries → env.fail s.currentIndex k = some (errs k)) →
        (∀ u, env.stopReq u = false) → (∀ u, env.handleRetryFails u = false) →
        (processRecord env maxRetries t s).1.results.failed
          = s.results.failed
              ++ [⟨s.currentIndex, s.records.getD s.currentIndex default,
                    errs maxRetries, maxRetries + 1⟩]) := by
  constructor
  · intro env maxRetries t s hrun hfail
    simp only [processRecord, hrun]
    rw [processRecordLoop, if_pos ⟨Nat.zero_le maxRetries, rfl⟩]
    simp only [hfail]
  · intro env maxRetries t s errs hrun hfail hstop hnav
    have h := processRecordLoop_allFail env maxRetries s.currentIndex
      (s.records.getD s.currentIndex default) errs hstop hnav hfail (maxRetries + 1) 0 t
      s.results (Nat.zero_le _) (by omega)
    simp only [processRecord, hrun]
    exact h

/-- Witness for C2: the first-attempt-success half on the trivial environment
and the exhausted-retries half with one retry allowed on the all-fail
environment, both on a single-record engine state. -/
theorem attempt_count_contract_witness :
    (processRecord noStopEnv 3 0 aliceState).1.results.successful
        = aliceState.results.successful
            ++ [⟨aliceState.currentIndex,
                  aliceState.records.getD aliceState.currentIndex default, 1⟩] ∧
    (processRecord allFailEnv 1 0 aliceState).1.results.failed
        = aliceState.results.failed
            ++ [⟨aliceState.currentIndex,
                  aliceState.records.getD aliceState.currentIndex default,
                  "submit timeout", 2⟩] :=
  ⟨(attempt_count_contract String).1 noStopEnv 3 0 aliceState rfl rfl,
    (attempt_count_contract String).2 allFailEnv 1 0 aliceState (fun _ => "submit timeout")
      rfl (fun _ _ => rfl) (fun _ => rfl) (fun _ => rfl)⟩

/-- C4 counterexample: in the three-record scenario with maxRetries = 1 the
final state has retries = 3, not 1 — the retry counter increments on every
caught attempt error (line 224): once for record 2 and twice for record 3 —
so the claimed conjunction is false. -/
theorem three_record_scenario_counterexample :
    ¬ ((startAutomation threeRecordEnv 1 ["r1", "r2", "r3"] 0).results.successful.length = 2 ∧
       (startAutomation threeRecordEnv 1 ["r1", "r2", "r3"] 0).results.failed.length = 1 ∧
       (startAutomation threeRecordEnv 1 ["r1", "r2", "r3"] 0).results.retries = 1 ∧
       (startAutomation threeRecordEnv 1 ["r1", "r2", "r3"] 0).currentIndex = 3) := by
  decide

/-- C4 (amended): the three-record scenario ends with successCount = 2,
failedCount = 1, currentIndex = 3, and retries = 3 (one recoverable failure
before record 2's success, and both of record 3's failing attempts count). -/
theorem three_record_scenario_amended :
    (startAutomation threeRecordEnv 1 ["r1", "r2", "r3"] 0).results.successful.length = 2 ∧
    (startAutomation threeRecordEnv 1 ["r1", "r2", "r3"] 0).results.failed.length = 1 ∧
    (startAutomation threeRecordEnv 1 ["r1", "r2", "r3"] 0).results.retries = 3 ∧
    (startAutomation threeRecordEnv 1 ["r1", "r2", "r3"] 0).currentIndex = 3 := by
  decide

/-- Helper: one run of the retry loop either pushes nothing and does not
advance, or pushes exactly one successful entry for this record index and
advances, or pushes exactly one failed entry for this record index and
advances. -/
theorem processRecordLoop_entries (env : Env) (maxRetries idx : Nat) (record : α) :
    ∀ fuel retryCount t running results,
      ((processRecordLoop env maxRetries idx record fuel retryCount t running
            results).results.successful = results.successful ∧
        (processRecordLoop env maxRetries idx record fuel retryCount t running
            results).results.failed = results.failed ∧
        (processRecordLoop env maxRetries idx record fuel retryCount t running
            results).advanced = false) ∨
      (∃ a,
        (processRecordLoop env maxRetries idx record fuel retryCount t running
            results).results.successful = results.successful ++ [⟨idx, record, a⟩] ∧
        (processRecordLoop env maxRetries idx record fuel retryCount t running
            results).results.failed = results.failed ∧
        (processRecordLoop env maxRetries idx record fuel retryCount t running
            results).advanced = true) ∨
      (∃ msg a,
        (processRecordLoop env maxRetries idx record fuel retryCount t running
            results).results.successful = results.successful ∧
        (processRecordLoop env maxRetries idx record fuel retryCount t running
            results).results.failed = results.failed ++ [⟨idx, record, msg, a⟩] ∧
        (processRecordLoop env maxRetries idx record fuel retryCount t running
            results).advanced = true) := by
  intro fuel
  induction fuel with
  | zero => intro retryCount t running results; exact Or.inl ⟨rfl, rfl, rfl⟩
  | succ fuel ih =>
    intro retryCount t running results
    by_cases hcond : retryCount ≤ maxRetries ∧ running = true
    · cases hf : env.fail idx retryCount with
      | none =>
        refine Or.inr (Or.inl ⟨retryCount + 1, ?_, ?_, ?_⟩) <;>
          rw [processRecordLoop, if_pos hcond] <;> simp [hf]
      | some msg =>
        by_cases hc : retryCount + 1 ≤ maxRetries
        · by_cases hr : env.handleRetryFails t = true
          · refine Or.inl ⟨?_, ?_, ?_⟩ <;>
              rw [processRecordLoop, if_pos hcond] <;> simp [hf, hc, hr]
          · rw [processRecordLoop, if_pos hcond]
            simp only [hf]
            rw [if_pos hc, if_neg hr]
            exact ih (retryCount + 1) (t + 1) (running && !env.stopReq t)
              { results with retries := results.retries + 1 }
        · refine Or.inr (Or.inr ⟨msg, retryCount + 1, ?_, ?_, ?_⟩) <;>
            rw [processRecordLoop, if_pos hcond] <;> simp [hf, hc]
    · refine Or.inl ⟨?_, ?_, ?_⟩ <;> rw [processRecordLoop, if_neg hcond]

/-- Helper: processRecord preserves the per-run bookkeeping invariant — every
entry's index is below `currentIndex`, and the indices across the two result
lists are pairwise distinct (each record is finalized at most once). -/
theorem processRecord_invariant [Inhabited α] (env : Env) (maxRetries t : Nat)
    (s : EngineState α)
    (h1 : ∀ e ∈ s.results.successful, e.index < s.currentIndex)
    (h2 : ∀ e ∈ s.results.failed, e.index < s.currentIndex)
    (h3 : (s.results.successful.map SuccessEntry.index
            ++ s.results.failed.map FailEntry.index).Nodup) :
    (∀ e ∈ (processRecord env maxRetries t s).1.results.successful,
        e.index < (processRecord env maxRetries t s).1.currentIndex) ∧
    (∀ e ∈ (processRecord env maxRetries t s).1.results.failed,
        e.index < (processRecord env maxRetries t s).1.currentIndex) ∧
    ((processRecord env maxRetries t s).1.results.successful.map SuccessEntry.index
        ++ (processRecord env maxRetries t s).1.results.failed.map FailEntry.index).Nodup := by
  have hidx : s.currentIndex ∉ (s.results.successful.map SuccessEntry.index
      ++ s.results.failed.map FailEntry.index) := by
    intro hmem
    rcases List.mem_append.mp hmem with hm | hm
    · obtain ⟨e, he, hee⟩ := List.mem_map.mp hm
      exact Nat.ne_of_lt (h1 e he) hee
    · obtain ⟨e, he, hee⟩ := List.mem_map.mp hm
      exact Nat.ne_of_lt (h2 e he) hee
  rcases processRecordLoop_entries env maxRetries s.currentIndex
      (s.records.getD s.currentIndex default) (maxRetries + 1) 0 t s.isRunning s.results
    with ⟨e1, e2, e3⟩ | ⟨a, e1, e2, e3⟩ | ⟨msg, a, e1, e2, e3⟩
  · have hsu : (processRecord env maxRetries t s).1.results.successful
        = s.results.successful := by simp only [processRecord]; exact e1
    have hfa : (processRecord env maxRetries t s).1.results.failed
        = s.results.failed := by simp only [processRecord]; exact e2
    have hci : (processRecord env maxRetries t s).1.currentIndex = s.currentIndex := by
      simp only [processRecord]; rw [e3]; simp
    rw [hsu, hfa, hci]
    exact ⟨h1, h2, h3⟩
  · have hsu : (processRecord env maxRetries t s).1.results.successful
        = s.results.successful
            ++ [⟨s.currentIndex, s.records.getD s.currentIndex default, a⟩] := by
      simp only [processRecord]; exact e1
    have hfa : (processRecord env maxRetries t s).1.results.failed
        = s.results.failed := by simp only [processRecord]; exact e2
    have hci : (processRecord env maxRetries t s).1.currentIndex = s.currentIndex + 1 := by
      simp only [processRecord]; rw [e3]; simp
    rw [hsu, hfa, hci]
    refine ⟨?_, ?_, ?_⟩
    · intro e he
      rcases List.mem_append.mp he with hm | hm
      · exact lt_trans (h1 e hm) (Nat.lt_succ_self _)
      · cases List.mem_singleton.mp hm
        exact Nat.lt_succ_self _
    · intro e he
      exact lt_trans (h2 e he) (Nat.lt_succ_self _)
    · rw [List.map_append, List.append_assoc]
      simp only [List.map_cons, List.map_nil, List.singleton_append]
      rw [List.nodup_middle]
      exact List.nodup_cons.mpr ⟨hidx, h3⟩
  · have hsu : (processRecord env maxRetries t s).1.results.successful
        = s.results.successful := by simp only [processRecord]; exact e1
    have hfa : (processRecord env maxRetries t s).1.results.failed
        = s.results.failed
            ++ [⟨s.currentIndex, s.records.getD s.currentIndex default, msg, a⟩] := by
      simp only [processRecord]; exact e2
    have hci : (processRecord env maxRetries t s).1.currentIndex = s.currentIndex + 1 := by
      simp only [processRecord]; rw [e3]; simp
    rw [hsu, hfa, hci]
    refine ⟨?_, ?_, ?_⟩
    · intro e he
      exact lt_trans (h1 e he) (Nat.lt_succ_self _)
    · intro e he
      rcases List.mem_append.mp he with hm | hm
      · exact lt_trans (h2 e hm) (Nat.lt_succ_self _)
      · cases List.mem_singleton.mp hm
        exact Nat.lt_succ_self _
    · rw [List.map_append]
      simp only [List.map_cons, List.map_nil]
      rw [← List.append_assoc]
      refine List.Nodup.append h3 (List.nodup_singleton _) ?_
      intro x hx hy
      rw [List.mem_singleton.mp hy] at hx
      exact hidx hx

/-- Helper: the main loop preserves the per-run bookkeeping invariant. -/
theorem mainLoop_invariant [Inhabited α] (env : Env) (maxRetries : Nat) :
    ∀ fuel t (s : EngineState α),
      (∀ e ∈ s.results.successful, e.index < s.currentIndex) →
      (∀ e ∈ s.results.failed, e.index < s.currentIndex) →
      ((s.results.successful.map SuccessEntry.index
          ++ s.results.failed.map FailEntry.index).Nodup) →
      ((∀ e ∈ (mainLoop env maxRetries fuel t s).results.successful,
          e.index < (mainLoop env maxRetries fuel t s).currentIndex) ∧
       (∀ e ∈ (mainLoop env maxRetries fuel t s).results.failed,
          e.index < (mainLoop env maxRetries fuel t s).currentIndex) ∧
       ((mainLoop env maxRetries fuel t s).results.successful.map SuccessEntry.index
          ++ (mainLoop env maxRetries fuel t s).results.failed.map FailEntry.index).Nodup) := by
  intro fuel
  induction fuel with
  | zero => intro t s h1 h2 h3; exact ⟨h1, h2, h3⟩
  | succ fuel ih =>
    intro t s h1 h2 h3
    by_cases hcond : s.isRunning = true ∧ s.currentIndex < s.records.length
    · rw [mainLoop, if_pos hcond]
      obtain ⟨g1, g2, g3⟩ := processRecord_invariant env maxRetries t s h1 h2 h3
      exact ih _ _ g1 g2 g3
    · rw [mainLoop, if_neg hcond]
      exact ⟨h1, h2, h3⟩

/-- C5 (amended): when stop() lands while a record is mid-retry the run ends
without finalizing that record — in every run each entry's index stays below
the final `currentIndex` (so no record at or beyond the stop point appears in
either result list) and each record receives at most one entry across the two
lists; and in the concrete mid-retry-stop scenario the run ends at
`currentIndex = 1` with the in-progress record 2 receiving no entry at all
(its last error is dropped rather than recorded). -/
theorem stop_midretry_amended :
    (∀ (α : Type) [Inhabited α] (env : Env) (maxRetries startIndex : Nat)
        (records : List α),
      (∀ e ∈ (startAutomation env maxRetries records startIndex).results.successful,
          e.index < (startAutomation env maxRetries records startIndex).currentIndex) ∧
      (∀ e ∈ (startAutomation env maxRetries records startIndex).results.failed,
          e.index < (startAutomation env maxRetries records startIndex).currentIndex) ∧
      ((startAutomation env maxRetries records startIndex).results.successful.map
            SuccessEntry.index
          ++ (startAutomation env maxRetries records startIndex).results.failed.map
            FailEntry.index).Nodup) ∧
    ((startAutomation midRetryStopEnv 3 ["r1", "r2", "r3", "r4", "r5"] 0).currentIndex
        = 1 ∧
      ((startAutomation midRetryStopEnv 3 ["r1", "r2", "r3", "r4", "r5"]
              0).results.successful.filter (fun e => e.index == 1)).length
          + ((startAutomation midRetryStopEnv 3 ["r1", "r2", "r3", "r4", "r5"]
              0).results.failed.filter (fun e => e.index == 1)).length = 0) := by
  constructor
  · intro α _ env maxRetries startIndex records
    have h := mainLoop_invariant env maxRetries (records.length + 1 - startIndex) 0
      (⟨true, startIndex, records, ⟨[], [], 0⟩⟩ : EngineState α)
      (fun e he => absurd he (List.not_mem_nil e))
      (fun e he => absurd he (List.not_mem_nil e)) List.nodup_nil
    simp only [startAutomation]
    exact h
  · decide

/-- Witness for the amended C5 on the concrete mid-retry-stop run: the one
recorded entry (for record 1) indeed has index below the final currentIndex. -/
theorem stop_midretry_amended_witness :
    (⟨0, "r1", 1⟩ : SuccessEntry String)
        ∈ (startAutomation midRetryStopEnv 3 ["r1", "r2", "r3", "r4", "r5"]
            0).results.successful ∧
    SuccessEntry.index (⟨0, "r1", 1⟩ : SuccessEntry String)
        < (startAutomation midRetryStopEnv 3 ["r1", "r2", "r3", "r4", "r5"]
            0).currentIndex := by
  have hmem : (⟨0, "r1", 1⟩ : SuccessEntry String)
      ∈ (startAutomation midRetryStopEnv 3 ["r1", "r2", "r3", "r4", "r5"]
          0).results.successful := by decide
  exact ⟨hmem,
    (stop_midretry_amended.1 String midRetryStopEnv 3 0
        ["r1", "r2", "r3", "r4", "r5"]).1 ⟨0, "r1", 1⟩ hmem⟩

/-- C5 counterexample: a stop() issued while record 2 (index 1) of 5 is
mid-retry ends the run with record 2 receiving NO entry in either result list
(not exactly one): the only entry is record 1's success, `currentIndex` stays
at 1, and record 2's error message appears nowhere — it is dropped. -/
theorem stop_midretry_counterexample :
    (startAutomation midRetryStopEnv 3 ["r1", "r2", "r3", "r4", "r5"]
        0).results.successful = [⟨0, "r1", 1⟩] ∧
    (startAutomation midRetryStopEnv 3 ["r1", "r2", "r3", "r4", "r5"]
        0).results.failed = [] ∧
    (startAutomation midRetryStopEnv 3 ["r1", "r2", "r3", "r4", "r5"]
        0).currentIndex = 1 ∧
    (startAutomation midRetryStopEnv 3 ["r1", "r2", "r3", "r4", "r5"]
        0).results.retries = 1 := by
  decide

end KingsForms
